import Mathlib

/-!
Verification development for a Cal.com API gateway tool set
(`src/app.py`): a stateless collection of operations that read a bearer
credential from the environment, build HTTP requests against a fixed
base URL, and normalise every outcome into a JSON "envelope" value.

The embedding is shallow:

* Python/JSON values are modelled by `JValue`; a Python `dict` is an
  ordered association list of string keys (Python dicts preserve
  insertion order).
* The `requests` library is modelled by a `Transport` oracle mapping a
  built `Request` to an `HttpOutcome`: either a response (status code,
  raw body text, and the result of attempting to parse the body as
  JSON, `none` meaning `response.json()` raises) or a
  `requestException` (connection refused, DNS failure, timeout, ...).
* Each operation returns both its result value and the list of requests
  it issued, so "performs no network call" is the trace being `[]`.
* `response.raise_for_status()` raises exactly when
  `400 ≤ status_code < 600` (the behaviour of `requests`).
* A JSON-decode failure of `response.json()` raises
  `requests.exceptions.JSONDecodeError`, which is a subclass of
  `requests.exceptions.RequestException` (requests ≥ 2.27), so it is
  caught by the `except requests.exceptions.RequestException` arm.
* The exact text of the messages `requests` interpolates into
  f-strings (`{http_err}`, `{req_err}`) is abstracted by fixed string
  functions; no claim depends on their precise content.
-/

namespace CalcomMCP

/-- JSON values, the result type of every operation (Python dicts are
ordered association lists). -/
inductive JValue where
  | null
  | bool (b : Bool)
  | num (n : Int)
  | str (s : String)
  | arr (elems : List JValue)
  | obj (fields : List (String × JValue))

/-- An outgoing HTTP request as built by an operation: method, full
URL, header list, query-parameter mapping (for GET) and JSON body (for
POST). -/
structure Request where
  method : String
  url : String
  headers : List (String × String)
  queryParams : List (String × JValue)
  jsonBody : Option JValue

/-- The outcome of handing a request to the `requests` library:
either a response — status code, raw body text, and the JSON parse of
the body (`none` when the body is not valid JSON, in which case
`response.json()` raises) — or a transport-level exception
(`requests.exceptions.RequestException`: connection refused, DNS
failure, timeout, ...). -/
inductive HttpOutcome where
  | ok (status : Nat) (text : String) (parsed : Option JValue)
  | requestException (msg : String)

/-- The network oracle an operation runs against. -/
def Transport : Type := Request → HttpOutcome

/-- A transport returning a fixed outcome for every request. -/
def constTransport (o : HttpOutcome) : Transport := fun _ => o

/-- A transport on which every request fails; used to witness that an
operation's result does not depend on the network. -/
def deadTransport : Transport := fun _ => .requestException "unreachable"

/-- `CALCOM_API_BASE_URL` in the source. -/
def baseUrl : String := "https://api.cal.com/v2"

/-- Python truthiness of the `os.getenv` result: `None` and the empty
string are falsy (`if not CALCOM_API_KEY`). -/
def keyConfigured : Option String → Bool
  | none => false
  | some s => s != ""

/-- Python truthiness of an optional string parameter. -/
def optStrTruthy : Option String → Bool
  | none => false
  | some s => s != ""

/-- Python truthiness of an optional int parameter (`0` is falsy). -/
def optIntTruthy : Option Int → Bool
  | none => false
  | some n => n != 0

/-- Python truthiness of an optional list parameter (`[]` is falsy). -/
def optListTruthy : Option (List String) → Bool
  | none => false
  | some l => !l.isEmpty

/-- Python truthiness of an optional dict parameter (`{}` is falsy). -/
def optDictTruthy : Option (List (String × JValue)) → Bool
  | none => false
  | some l => !l.isEmpty

/-- The envelope returned by every credential-guarded operation when
`CALCOM_API_KEY` is absent (lines 46, 89 and 167 of `src/app.py`). -/
def apiKeyErrorMsg : String :=
  "Cal.com API key not configured. Please set the CALCOM_API_KEY environment variable."

/-- The error envelope for a missing credential. -/
def apiKeyErrorEnvelope : JValue := .obj [("error", .str apiKeyErrorMsg)]

/-- The header mapping shared by all authenticated calls. -/
def authHeaders (key : String) : List (String × String) :=
  [("Authorization", "Bearer " ++ key), ("Content-Type", "application/json")]

/-- Abstraction of the text of `f"HTTP error occurred: {http_err}"`;
the interpolated `HTTPError` mentions the status code and the URL. -/
def httpErrorText (status : Nat) (url : String) : String :=
  "HTTP error occurred: " ++ toString status ++ " for url: " ++ url

/-- Abstraction of the text of `f"Request exception occurred: {req_err}"`
for a `JSONDecodeError` raised by `response.json()` on body `text`. -/
def jsonDecodeErrorText (text : String) : String :=
  "Request exception occurred: could not decode JSON from " ++ text

/-- Result normalisation shared verbatim by `list_event_types` and
`get_bookings` (`src/app.py` lines 60-69 and 110-119): call
`raise_for_status`, then `response.json()`; `HTTPError` yields an
envelope with `status_code` and the raw body text, any other
`RequestException` (including a JSON-decode failure) yields a bare
error envelope. -/
def readResult (url : String) (o : HttpOutcome) : JValue :=
  match o with
  | .requestException msg =>
      .obj [("error", .str ("Request exception occurred: " ++ msg))]
  | .ok status text parsed =>
      if 400 ≤ status ∧ status < 600 then
        .obj [("error", .str (httpErrorText status url)),
              ("status_code", .num status),
              ("response_text", .str text)]
      else
        match parsed with
        | some v => v
        | none => .obj [("error", .str (jsonDecodeErrorText text))]

/-- The `get_api_status` tool (`src/app.py` lines 31-37). -/
def get_api_status (apiKey : Option String) : String :=
  if keyConfigured apiKey then
    "Cal.com API key is configured."
  else
    "Cal.com API key is NOT configured. Please set the CALCOM_API_KEY environment variable."

/-- The `list_event_types` tool (`src/app.py` lines 39-69): guard on
the credential, then `GET /event-types` and normalise. The second
component is the list of network requests performed. -/
def list_event_types (apiKey : Option String) (t : Transport) :
    JValue × List Request :=
  if keyConfigured apiKey then
    let req : Request :=
      ⟨"GET", baseUrl ++ "/event-types",
       authHeaders (apiKey.getD ""), [], none⟩
    (readResult req.url (t req), [req])
  else
    (apiKeyErrorEnvelope, [])

/-- One optional field of an outgoing mapping: present exactly when the
given value is present. -/
def optField (key : String) : Option JValue → List (String × JValue)
  | some v => [(key, v)]
  | none => []

/-- The query-parameter mapping built by `get_bookings`
(`src/app.py` lines 96-108): each parameter is added exactly when it
`is not None`, renamed to the camelCase key the remote expects, with
`limit` sent as `take`. -/
def getBookingsParams (event_type_id user_id : Option Int)
    (status date_from date_to : Option String) (limit : Option Int) :
    List (String × JValue) :=
  optField "eventTypeId" (event_type_id.map .num)
    ++ optField "userId" (user_id.map .num)
    ++ optField "status" (status.map .str)
    ++ optField "dateFrom" (date_from.map .str)
    ++ optField "dateTo" (date_to.map .str)
    ++ optField "take" (limit.map .num)

/-- The `get_bookings` tool (`src/app.py` lines 72-119).  In the
source `limit` has Python default `20`; a caller omitting it passes
`some 20` here. -/
def get_bookings (apiKey : Option String)
    (event_type_id user_id : Option Int)
    (status date_from date_to : Option String) (limit : Option Int)
    (t : Transport) : JValue × List Request :=
  if keyConfigured apiKey then
    let req : Request :=
      ⟨"GET", baseUrl ++ "/bookings", authHeaders (apiKey.getD ""),
       getBookingsParams event_type_id user_id status date_from date_to limit,
       none⟩
    (readResult req.url (t req), [req])
  else
    (apiKeyErrorEnvelope, [])

/-- The apostrophe character, built here so the validation message can
quote parameter names exactly as the source does. -/
def apos : String := String.singleton (Char.ofNat 39)

/-- The validation message of `create_booking` (`src/app.py` line 170):
"Either (apos)event_type_id(apos) or ((apos)event_type_slug(apos) and
(apos)username(apos)/(apos)team_slug(apos)) must be provided." with
each `(apos)` an ASCII apostrophe. -/
def bookingValidationMsg : String :=
  "Either " ++ apos ++ "event_type_id" ++ apos ++ " or (" ++ apos
    ++ "event_type_slug" ++ apos ++ " and " ++ apos ++ "username" ++ apos
    ++ "/" ++ apos ++ "team_slug" ++ apos ++ ") must be provided."

/-- The validation-error envelope of `create_booking`. -/
def bookingValidationEnvelope : JValue := .obj [("error", .str bookingValidationMsg)]

/-- `create_booking`'s identification precondition (`src/app.py`
line 169): the operation proceeds unless
`not event_type_id and not (event_type_slug and (username or team_slug))`,
all by Python truthiness. -/
def createBookingValid (event_type_id : Option Int)
    (event_type_slug username team_slug : Option String) : Bool :=
  optIntTruthy event_type_id
    || (optStrTruthy event_type_slug
        && (optStrTruthy username || optStrTruthy team_slug))

/-- JSON serialisation of an optional Python string: `None` becomes
JSON `null` (this is what `payload['eventTypeSlug'] = event_type_slug`
would send were the slug `None`). -/
def jsonOfOptStr : Option String → JValue
  | some s => .str s
  | none => .null

/-- JSON serialisation of an optional Python int. -/
def jsonOfOptInt : Option Int → JValue
  | some n => .num n
  | none => .null

/-- A string field included only when the parameter is truthy
(`if x: payload[key] = x`). -/
def truthyStrField (key : String) (v : Option String) : List (String × JValue) :=
  if optStrTruthy v then [(key, jsonOfOptStr v)] else []

/-- The `attendee` object of `create_booking`'s payload
(`src/app.py` lines 180-184 and 198-201): `name`, `email`, `timeZone`
always, then `phoneNumber` and `language` when truthy. -/
def attendeeObject (attendee_name attendee_email attendee_timezone : String)
    (attendee_phone_number attendee_language : Option String) : JValue :=
  .obj ([("name", .str attendee_name),
         ("email", .str attendee_email),
         ("timeZone", .str attendee_timezone)]
    ++ truthyStrField "phoneNumber" attendee_phone_number
    ++ truthyStrField "language" attendee_language)

/-- The event-identification fields of the payload (`src/app.py`
lines 187-196): `eventTypeId` when `event_type_id` is truthy;
otherwise `eventTypeSlug` unconditionally, then `username` when
truthy, else `teamSlug` when truthy, then `organizationSlug` when
truthy. -/
def idSegment (event_type_id : Option Int)
    (event_type_slug username team_slug organization_slug : Option String) :
    List (String × JValue) :=
  if optIntTruthy event_type_id then
    [("eventTypeId", jsonOfOptInt event_type_id)]
  else
    ("eventTypeSlug", jsonOfOptStr event_type_slug)
      :: ((if optStrTruthy username then
             [("username", jsonOfOptStr username)]
           else if optStrTruthy team_slug then
             [("teamSlug", jsonOfOptStr team_slug)]
           else [])
        ++ truthyStrField "organizationSlug" organization_slug)

/-- The JSON payload built by `create_booking` (`src/app.py`
lines 178-212), with Python-dict insertion order: `start` and
`attendee` first, the identification fields next, then each optional
field exactly when its parameter is truthy. -/
def createBookingPayload
    (start_time attendee_name attendee_email attendee_timezone : String)
    (event_type_id : Option Int)
    (event_type_slug username team_slug organization_slug : Option String)
    (attendee_phone_number attendee_language : Option String)
    (guests : Option (List String)) (location_input : Option String)
    (metadata : Option (List (String × JValue)))
    (length_in_minutes : Option Int)
    (booking_fields_responses : Option (List (String × JValue))) : JValue :=
  .obj ([("start", .str start_time),
         ("attendee", attendeeObject attendee_name attendee_email
            attendee_timezone attendee_phone_number attendee_language)]
    ++ idSegment event_type_id event_type_slug username team_slug organization_slug
    ++ (if optListTruthy guests then
          [("guests", .arr ((guests.getD []).map .str))]
        else [])
    ++ truthyStrField "location" location_input
    ++ (if optDictTruthy metadata then
          [("metadata", .obj (metadata.getD []))]
        else [])
    ++ (if optIntTruthy length_in_minutes then
          [("lengthInMinutes", jsonOfOptInt length_in_minutes)]
        else [])
    ++ (if optDictTruthy booking_fields_responses then
          [("bookingFieldsResponses", .obj (booking_fields_responses.getD []))]
        else []))

/-- Result normalisation of `create_booking` (`src/app.py`
lines 214-228): like `readResult`, except the `HTTPError` envelope's
`response_text` is the parsed JSON of the error body when it parses,
falling back to the raw text. -/
def createResult (url : String) (o : HttpOutcome) : JValue :=
  match o with
  | .requestException msg =>
      .obj [("error", .str ("Request exception occurred: " ++ msg))]
  | .ok status text parsed =>
      if 400 ≤ status ∧ status < 600 then
        .obj [("error", .str (httpErrorText status url)),
              ("status_code", .num status),
              ("response_text", match parsed with
                                | some v => v
                                | none => .str text)]
      else
        match parsed with
        | some v => v
        | none => .obj [("error", .str (jsonDecodeErrorText text))]

/-- The `create_booking` tool (`src/app.py` lines 122-228): credential
guard, identification-precondition guard, then `POST /bookings` with
the built payload and the extra `cal-api-version` header, and
normalise. -/
def create_booking (apiKey : Option String)
    (start_time attendee_name attendee_email attendee_timezone : String)
    (event_type_id : Option Int)
    (event_type_slug username team_slug organization_slug : Option String)
    (attendee_phone_number attendee_language : Option String)
    (guests : Option (List String)) (location_input : Option String)
    (metadata : Option (List (String × JValue)))
    (length_in_minutes : Option Int)
    (booking_fields_responses : Option (List (String × JValue)))
    (t : Transport) : JValue × List Request :=
  if keyConfigured apiKey then
    if createBookingValid event_type_id event_type_slug username team_slug then
      let req : Request :=
        ⟨"POST", baseUrl ++ "/bookings",
         authHeaders (apiKey.getD "") ++ [("cal-api-version", "2024-08-13")],
         [],
         some (createBookingPayload start_time attendee_name attendee_email
           attendee_timezone event_type_id event_type_slug username team_slug
           organization_slug attendee_phone_number attendee_language guests
           location_input metadata length_in_minutes booking_fields_responses)⟩
      (createResult req.url (t req), [req])
    else
      (bookingValidationEnvelope, [])
  else
    (apiKeyErrorEnvelope, [])

/-- Whether an association list carries the given key. -/
def hasKeyL (key : String) (fields : List (String × JValue)) : Bool :=
  fields.any (fun p => p.1 == key)

/-- Whether a JSON value is an object carrying the given key. -/
def hasKey (key : String) : JValue → Bool
  | .obj fields => hasKeyL key fields
  | _ => false

/-- The value an object carries at the given key (first occurrence). -/
def getField (key : String) : JValue → Option JValue
  | .obj fields => fields.lookup key
  | _ => none

/-- Modelled from the spec: result normalisation for the operations
absent from `src/` (`list_schedules`, `list_teams`, `list_users`,
`list_webhooks`), following §4.3 steps 5-6: on a 200 or 201 response
parse and return the JSON body as-is; on any other status code, a
JSON-parse failure, or a transport-level fault return an error
envelope with at minimum an `error` message and, when available,
`status_code` and raw response text. -/
def specReadResult (o : HttpOutcome) : JValue :=
  match o with
  | .requestException msg =>
      .obj [("error", .str ("Transport error: " ++ msg))]
  | .ok status text parsed =>
      if status == 200 || status == 201 then
        match parsed with
        | some v => v
        | none => .obj [("error", .str "JSON parse failure"),
                        ("status_code", .num status),
                        ("response_text", .str text)]
      else
        .obj [("error", .str "Remote error"),
              ("status_code", .num status),
              ("response_text", .str text)]

/-- Modelled from the spec: the `list_schedules` operation is listed in
the spec's operation table (§4.3: `GET /schedules`, optional inputs
`user_id→userId`, `team_id→teamId`, `limit`) and tool surface (§6) but
no implementation of it appears under `src/`; this definition follows
the spec's algorithm (§4.3 steps 1-6) word for word: credential guard
with `error = "API key not configured"`, copy only the non-null
parameters under their renamed keys, one GET request, pass a 200/201
JSON body through, and turn any other outcome into an error envelope
with `status_code` and raw text when available. -/
def list_schedules (apiKey : Option String) (user_id team_id limit : Option Int)
    (t : Transport) : JValue × List Request :=
  match apiKey with
  | none => (.obj [("error", .str "API key not configured")], [])
  | some k =>
      let req : Request :=
        ⟨"GET", baseUrl ++ "/schedules", authHeaders k,
         optField "userId" (user_id.map .num)
           ++ optField "teamId" (team_id.map .num)
           ++ optField "limit" (limit.map .num), none⟩
      (specReadResult (t req), [req])

/-- Modelled from the spec: the `list_teams` operation (§4.3 table:
`GET /teams`, optional `limit`), absent from `src/`; built per the
spec's algorithm like `list_schedules`. -/
def list_teams (apiKey : Option String) (limit : Option Int)
    (t : Transport) : JValue × List Request :=
  match apiKey with
  | none => (.obj [("error", .str "API key not configured")], [])
  | some k =>
      let req : Request :=
        ⟨"GET", baseUrl ++ "/teams", authHeaders k,
         optField "limit" (limit.map .num), none⟩
      (specReadResult (t req), [req])

/-- Modelled from the spec: the `list_users` operation (§4.3 table:
`GET /users`, optional `limit`), absent from `src/`. -/
def list_users (apiKey : Option String) (limit : Option Int)
    (t : Transport) : JValue × List Request :=
  match apiKey with
  | none => (.obj [("error", .str "API key not configured")], [])
  | some k =>
      let req : Request :=
        ⟨"GET", baseUrl ++ "/users", authHeaders k,
         optField "limit" (limit.map .num), none⟩
      (specReadResult (t req), [req])

/-- Modelled from the spec: the `list_webhooks` operation (§4.3 table:
`GET /webhooks`, optional `limit`), absent from `src/`. -/
def list_webhooks (apiKey : Option String) (limit : Option Int)
    (t : Transport) : JValue × List Request :=
  match apiKey with
  | none => (.obj [("error", .str "API key not configured")], [])
  | some k =>
      let req : Request :=
        ⟨"GET", baseUrl ++ "/webhooks", authHeaders k,
         optField "limit" (limit.map .num), none⟩
      (specReadResult (t req), [req])

/-- Faulty transport outcomes in the sense of claim C7: a
transport-level exception, or a response body that fails to parse as
JSON (so `response.json()` raises). -/
def isFault : HttpOutcome → Bool
  | .requestException _ => true
  | .ok _ _ parsed => parsed.isNone

theorem hasKeyL_append (k : String) (l1 l2 : List (String × JValue)) :
    hasKeyL k (l1 ++ l2) = (hasKeyL k l1 || hasKeyL k l2) := by
  simp [hasKeyL, List.any_append]

theorem hasKeyL_optField (k k2 : String) (o : Option JValue) :
    hasKeyL k (optField k2 o) = (k2 == k && o.isSome) := by
  cases o <;> simp [hasKeyL, optField]

theorem hasKeyL_truthyStrField (k k2 : String) (v : Option String) :
    hasKeyL k (truthyStrField k2 v) = (k2 == k && optStrTruthy v) := by
  unfold truthyStrField
  split <;> simp_all [hasKeyL]

theorem hasKeyL_cons (k : String) (p : String × JValue)
    (l : List (String × JValue)) :
    hasKeyL k (p :: l) = (p.1 == k || hasKeyL k l) := by
  simp [hasKeyL]

theorem hasKeyL_nil (k : String) : hasKeyL k [] = false := rfl

theorem idSegment_eventTypeId (e : Option Int) (s u t o : Option String) :
    hasKeyL "eventTypeId" (idSegment e s u t o) = optIntTruthy e := by
  by_cases he : optIntTruthy e = true <;>
  by_cases hu : optStrTruthy u = true <;>
  by_cases ht : optStrTruthy t = true <;>
  by_cases ho : optStrTruthy o = true <;>
    simp [idSegment, truthyStrField, hasKeyL, he, hu, ht, ho]

theorem idSegment_eventTypeSlug (e : Option Int) (s u t o : Option String) :
    hasKeyL "eventTypeSlug" (idSegment e s u t o) = !optIntTruthy e := by
  by_cases he : optIntTruthy e = true <;>
  by_cases hu : optStrTruthy u = true <;>
  by_cases ht : optStrTruthy t = true <;>
  by_cases ho : optStrTruthy o = true <;>
    simp [idSegment, truthyStrField, hasKeyL, he, hu, ht, ho]

theorem idSegment_username (e : Option Int) (s u t o : Option String) :
    hasKeyL "username" (idSegment e s u t o)
      = (!optIntTruthy e && optStrTruthy u) := by
  by_cases he : optIntTruthy e = true <;>
  by_cases hu : optStrTruthy u = true <;>
  by_cases ht : optStrTruthy t = true <;>
  by_cases ho : optStrTruthy o = true <;>
    simp [idSegment, truthyStrField, hasKeyL, he, hu, ht, ho]

theorem idSegment_teamSlug (e : Option Int) (s u t o : Option String) :
    hasKeyL "teamSlug" (idSegment e s u t o)
      = (!optIntTruthy e && !optStrTruthy u && optStrTruthy t) := by
  by_cases he : optIntTruthy e = true <;>
  by_cases hu : optStrTruthy u = true <;>
  by_cases ht : optStrTruthy t = true <;>
  by_cases ho : optStrTruthy o = true <;>
    simp [idSegment, truthyStrField, hasKeyL, he, hu, ht, ho]

theorem idSegment_organizationSlug (e : Option Int) (s u t o : Option String) :
    hasKeyL "organizationSlug" (idSegment e s u t o)
      = (!optIntTruthy e && optStrTruthy o) := by
  by_cases he : optIntTruthy e = true <;>
  by_cases hu : optStrTruthy u = true <;>
  by_cases ht : optStrTruthy t = true <;>
  by_cases ho : optStrTruthy o = true <;>
    simp [idSegment, truthyStrField, hasKeyL, he, hu, ht, ho]

theorem hasKeyL_ifSingle (k k2 : String) (c : Bool) (v : JValue) :
    hasKeyL k (if c then [(k2, v)] else []) = (c && (k2 == k)) := by
  cases c <;> simp [hasKeyL]

theorem idSegment_other (k : String) (e : Option Int) (s u t o : Option String)
    (h1 : k ≠ "eventTypeId") (h2 : k ≠ "eventTypeSlug") (h3 : k ≠ "username")
    (h4 : k ≠ "teamSlug") (h5 : k ≠ "organizationSlug") :
    hasKeyL k (idSegment e s u t o) = false := by
  by_cases he : optIntTruthy e = true <;>
  by_cases hu : optStrTruthy u = true <;>
  by_cases ht : optStrTruthy t = true <;>
  by_cases ho : optStrTruthy o = true <;>
    simp [idSegment, truthyStrField, hasKeyL, he, hu, ht, ho,
      Ne.symm h1, Ne.symm h2, Ne.symm h3, Ne.symm h4, Ne.symm h5]

theorem attendee_phoneNumber (an ae tz : String) (ph lg : Option String) :
    hasKey "phoneNumber" (attendeeObject an ae tz ph lg) = optStrTruthy ph := by
  by_cases hp : optStrTruthy ph = true <;>
  by_cases hl : optStrTruthy lg = true <;>
    simp [attendeeObject, truthyStrField, hasKey, hasKeyL, hp, hl]

theorem attendee_language (an ae tz : String) (ph lg : Option String) :
    hasKey "language" (attendeeObject an ae tz ph lg) = optStrTruthy lg := by
  by_cases hp : optStrTruthy ph = true <;>
  by_cases hl : optStrTruthy lg = true <;>
    simp [attendeeObject, truthyStrField, hasKey, hasKeyL, hp, hl]

theorem payload_attendee (st an ae tz : String) (e : Option Int)
    (s u t o ph lg : Option String) (g : Option (List String))
    (loc : Option String) (md : Option (List (String × JValue)))
    (lim : Option Int) (bfr : Option (List (String × JValue))) :
    getField "attendee"
        (createBookingPayload st an ae tz e s u t o ph lg g loc md lim bfr)
      = some (attendeeObject an ae tz ph lg) := by
  simp [createBookingPayload, getField, List.lookup]

theorem payloadKey_eventTypeId (st an ae tz : String) (e : Option Int)
    (s u t o ph lg : Option String) (g : Option (List String))
    (loc : Option String) (md : Option (List (String × JValue)))
    (lim : Option Int) (bfr : Option (List (String × JValue))) :
    hasKey "eventTypeId"
        (createBookingPayload st an ae tz e s u t o ph lg g loc md lim bfr)
      = optIntTruthy e := by
  simp only [createBookingPayload, hasKey, hasKeyL_append, hasKeyL_cons,
    hasKeyL_nil, hasKeyL_ifSingle, hasKeyL_truthyStrField, idSegment_eventTypeId]
  simp

theorem payloadKey_eventTypeSlug (st an ae tz : String) (e : Option Int)
    (s u t o ph lg : Option String) (g : Option (List String))
    (loc : Option String) (md : Option (List (String × JValue)))
    (lim : Option Int) (bfr : Option (List (String × JValue))) :
    hasKey "eventTypeSlug"
        (createBookingPayload st an ae tz e s u t o ph lg g loc md lim bfr)
      = !optIntTruthy e := by
  simp only [createBookingPayload, hasKey, hasKeyL_append, hasKeyL_cons,
    hasKeyL_nil, hasKeyL_ifSingle, hasKeyL_truthyStrField, idSegment_eventTypeSlug]
  simp

theorem payloadKey_username (st an ae tz : String) (e : Option Int)
    (s u t o ph lg : Option String) (g : Option (List String))
    (loc : Option String) (md : Option (List (String × JValue)))
    (lim : Option Int) (bfr : Option (List (String × JValue))) :
    hasKey "username"
        (createBookingPayload st an ae tz e s u t o ph lg g loc md lim bfr)
      = (!optIntTruthy e && optStrTruthy u) := by
  simp only [createBookingPayload, hasKey, hasKeyL_append, hasKeyL_cons,
    hasKeyL_nil, hasKeyL_ifSingle, hasKeyL_truthyStrField, idSegment_username]
  simp

theorem payloadKey_teamSlug (st an ae tz : String) (e : Option Int)
    (s u t o ph lg : Option String) (g : Option (List String))
    (loc : Option String) (md : Option (List (String × JValue)))
    (lim : Option Int) (bfr : Option (List (String × JValue))) :
    hasKey "teamSlug"
        (createBookingPayload st an ae tz e s u t o ph lg g loc md lim bfr)
      = (!optIntTruthy e && !optStrTruthy u && optStrTruthy t) := by
  simp only [createBookingPayload, hasKey, hasKeyL_append, hasKeyL_cons,
    hasKeyL_nil, hasKeyL_ifSingle, hasKeyL_truthyStrField, idSegment_teamSlug]
  simp

theorem payloadKey_organizationSlug (st an ae tz : String) (e : Option Int)
    (s u t o ph lg : Option String) (g : Option (List String))
    (loc : Option String) (md : Option (List (String × JValue)))
    (lim : Option Int) (bfr : Option (List (String × JValue))) :
    hasKey "organizationSlug"
        (createBookingPayload st an ae tz e s u t o ph lg g loc md lim bfr)
      = (!optIntTruthy e && optStrTruthy o) := by
  simp only [createBookingPayload, hasKey, hasKeyL_append, hasKeyL_cons,
    hasKeyL_nil, hasKeyL_ifSingle, hasKeyL_truthyStrField, idSegment_organizationSlug]
  simp

theorem payloadKey_guests (st an ae tz : String) (e : Option Int)
    (s u t o ph lg : Option String) (g : Option (List String))
    (loc : Option String) (md : Option (List (String × JValue)))
    (lim : Option Int) (bfr : Option (List (String × JValue))) :
    hasKey "guests"
        (createBookingPayload st an ae tz e s u t o ph lg g loc md lim bfr)
      = optListTruthy g := by
  simp only [createBookingPayload, hasKey, hasKeyL_append, hasKeyL_cons,
    hasKeyL_nil, hasKeyL_ifSingle, hasKeyL_truthyStrField,
    idSegment_other "guests" e s u t o (by decide) (by decide) (by decide)
      (by decide) (by decide)]
  simp

theorem payloadKey_location (st an ae tz : String) (e : Option Int)
    (s u t o ph lg : Option String) (g : Option (List String))
    (loc : Option String) (md : Option (List (String × JValue)))
    (lim : Option Int) (bfr : Option (List (String × JValue))) :
    hasKey "location"
        (createBookingPayload st an ae tz e s u t o ph lg g loc md lim bfr)
      = optStrTruthy loc := by
  simp only [createBookingPayload, hasKey, hasKeyL_append, hasKeyL_cons,
    hasKeyL_nil, hasKeyL_ifSingle, hasKeyL_truthyStrField,
    idSegment_other "location" e s u t o (by decide) (by decide) (by decide)
      (by decide) (by decide)]
  simp

theorem payloadKey_metadata (st an ae tz : String) (e : Option Int)
    (s u t o ph lg : Option String) (g : Option (List String))
    (loc : Option String) (md : Option (List (String × JValue)))
    (lim : Option Int) (bfr : Option (List (String × JValue))) :
    hasKey "metadata"
        (createBookingPayload st an ae tz e s u t o ph lg g loc md lim bfr)
      = optDictTruthy md := by
  simp only [createBookingPayload, hasKey, hasKeyL_append, hasKeyL_cons,
    hasKeyL_nil, hasKeyL_ifSingle, hasKeyL_truthyStrField,
    idSegment_other "metadata" e s u t o (by decide) (by decide) (by decide)
      (by decide) (by decide)]
  simp

theorem payloadKey_lengthInMinutes (st an ae tz : String) (e : Option Int)
    (s u t o ph lg : Option String) (g : Option (List String))
    (loc : Option String) (md : Option (List (String × JValue)))
    (lim : Option Int) (bfr : Option (List (String × JValue))) :
    hasKey "lengthInMinutes"
        (createBookingPayload st an ae tz e s u t o ph lg g loc md lim bfr)
      = optIntTruthy lim := by
  simp only [createBookingPayload, hasKey, hasKeyL_append, hasKeyL_cons,
    hasKeyL_nil, hasKeyL_ifSingle, hasKeyL_truthyStrField,
    idSegment_other "lengthInMinutes" e s u t o (by decide) (by decide)
      (by decide) (by decide) (by decide)]
  simp

theorem payloadKey_bookingFieldsResponses (st an ae tz : String)
    (e : Option Int) (s u t o ph lg : Option String)
    (g : Option (List String)) (loc : Option String)
    (md : Option (List (String × JValue))) (lim : Option Int)
    (bfr : Option (List (String × JValue))) :
    hasKey "bookingFieldsResponses"
        (createBookingPayload st an ae tz e s u t o ph lg g loc md lim bfr)
      = optDictTruthy bfr := by
  simp only [createBookingPayload, hasKey, hasKeyL_append, hasKeyL_cons,
    hasKeyL_nil, hasKeyL_ifSingle, hasKeyL_truthyStrField,
    idSegment_other "bookingFieldsResponses" e s u t o (by decide) (by decide)
      (by decide) (by decide) (by decide)]
  simp

theorem gbp_eventTypeId (e u : Option Int) (s df dt : Option String)
    (l : Option Int) :
    hasKeyL "eventTypeId" (getBookingsParams e u s df dt l) = e.isSome := by
  simp [getBookingsParams, hasKeyL_append, hasKeyL_optField]

theorem gbp_userId (e u : Option Int) (s df dt : Option String)
    (l : Option Int) :
    hasKeyL "userId" (getBookingsParams e u s df dt l) = u.isSome := by
  simp [getBookingsParams, hasKeyL_append, hasKeyL_optField]

theorem gbp_status (e u : Option Int) (s df dt : Option String)
    (l : Option Int) :
    hasKeyL "status" (getBookingsParams e u s df dt l) = s.isSome := by
  simp [getBookingsParams, hasKeyL_append, hasKeyL_optField]

theorem gbp_dateFrom (e u : Option Int) (s df dt : Option String)
    (l : Option Int) :
    hasKeyL "dateFrom" (getBookingsParams e u s df dt l) = df.isSome := by
  simp [getBookingsParams, hasKeyL_append, hasKeyL_optField]

theorem gbp_dateTo (e u : Option Int) (s df dt : Option String)
    (l : Option Int) :
    hasKeyL "dateTo" (getBookingsParams e u s df dt l) = dt.isSome := by
  simp [getBookingsParams, hasKeyL_append, hasKeyL_optField]

theorem gbp_take (e u : Option Int) (s df dt : Option String)
    (l : Option Int) :
    hasKeyL "take" (getBookingsParams e u s df dt l) = l.isSome := by
  simp [getBookingsParams, hasKeyL_append, hasKeyL_optField]

/-- claim C1 — counterexample. The claim states that with the
credential absent each operation returns an envelope with
`error = "API key not configured"`. At the concrete input
`apiKey = none`, `list_event_types` returns an envelope whose `error`
string is the source's longer message, which is not the claimed
string, so the claim as stated is false. -/
theorem C1_counterexample :
    (list_event_types none deadTransport).1
        = JValue.obj [("error", JValue.str apiKeyErrorMsg)]
      ∧ apiKeyErrorMsg ≠ "API key not configured" :=
  ⟨rfl, by decide⟩

/-- claim C1 (amended) — for every operation except `get_api_status`
(`list_event_types`, `get_bookings`, `create_booking`), if the
credential `CALCOM_API_KEY` is absent the operation returns a Response
Envelope whose `error` message is "Cal.com API key not configured.
Please set the CALCOM_API_KEY environment variable." (which contains
the words "API key not configured"), and performs no network call:
the request trace is empty, for every transport. -/
theorem C1_no_key_no_call :
    (∀ t : Transport,
      list_event_types none t = (apiKeyErrorEnvelope, []))
    ∧ (∀ (t : Transport) (e u : Option Int) (s df dt : Option String)
        (l : Option Int),
      get_bookings none e u s df dt l t = (apiKeyErrorEnvelope, []))
    ∧ (∀ (t : Transport) (st an ae tz : String) (e : Option Int)
        (es us ts os ph lg : Option String) (g : Option (List String))
        (loc : Option String) (md : Option (List (String × JValue)))
        (lim : Option Int) (bfr : Option (List (String × JValue))),
      create_booking none st an ae tz e es us ts os ph lg g loc md lim bfr t
        = (apiKeyErrorEnvelope, [])) := by
  refine ⟨fun t => ?_, fun t e u s df dt l => ?_,
    fun t st an ae tz e es us ts os ph lg g loc md lim bfr => ?_⟩ <;>
    simp [list_event_types, get_bookings, create_booking, keyConfigured]

/-- claim C2 — for `create_booking`, whenever the credential is
present (a configured, non-empty key) but neither `event_type_id` is
provided nor `event_type_slug` is provided together with `username` or
`team_slug` (all three parameters of the slug route, and
`event_type_id`, being `None`), the result is the validation-error
envelope of `src/app.py` line 170 and the request trace is empty: no
network call occurs. -/
theorem C2_validation_no_call (k : String) (hk : k ≠ "")
    (st an ae tz : String) (e : Option Int)
    (es us ts os ph lg : Option String) (g : Option (List String))
    (loc : Option String) (md : Option (List (String × JValue)))
    (lim : Option Int) (bfr : Option (List (String × JValue)))
    (t : Transport)
    (he : e = none) (hslug : es = none ∨ (us = none ∧ ts = none)) :
    create_booking (some k) st an ae tz e es us ts os ph lg g loc md lim bfr t
      = (bookingValidationEnvelope, []) := by
  subst he
  have hv : createBookingValid none es us ts = false := by
    rcases hslug with h | ⟨h1, h2⟩ <;>
      simp_all [createBookingValid, optIntTruthy, optStrTruthy]
  simp [create_booking, keyConfigured, hk, hv]

/-- claim C2 — witness: the validation failure at a fully concrete
input (key configured, `event_type_id` and the whole slug route
absent). -/
theorem C2_witness :
    ("KEY" : String) ≠ ""
    ∧ create_booking (some "KEY") "2024-08-13T09:00:00Z" "Ada" "ada@a.io"
        "Europe/Rome" none none none none none none none none none none none
        none deadTransport
      = (bookingValidationEnvelope, []) :=
  ⟨by decide,
   C2_validation_no_call "KEY" (by decide) "2024-08-13T09:00:00Z" "Ada"
     "ada@a.io" "Europe/Rome" none none none none none none none none none
     none none none deadTransport rfl (Or.inl rfl)⟩

/-- claim C4 — for the call `get_bookings(event_type_id=42, limit=5)`
with the credential present, the outgoing query-parameter mapping is
exactly `eventTypeId = 42, take = 5` (the `limit` parameter is sent
under the key `take`), in that order, with no other keys, for every
transport. -/
theorem C4_query_mapping (t : Transport) :
    (get_bookings (some "KEY") (some 42) none none none none (some 5) t).2.map
        Request.queryParams
      = [[("eventTypeId", JValue.num 42), ("take", JValue.num 5)]] := by
  rfl

theorem readResult_fault (url : String) (o : HttpOutcome)
    (hf : isFault o = true) :
    hasKey "error" (readResult url o) = true := by
  cases o with
  | requestException msg => simp [readResult, hasKey, hasKeyL]
  | ok status text parsed =>
      cases parsed with
      | some v => simp [isFault] at hf
      | none =>
          by_cases h : 400 ≤ status ∧ status < 600 <;>
            simp [readResult, h, hasKey, hasKeyL]

theorem createResult_fault (url : String) (o : HttpOutcome)
    (hf : isFault o = true) :
    hasKey "error" (createResult url o) = true := by
  cases o with
  | requestException msg => simp [createResult, hasKey, hasKeyL]
  | ok status text parsed =>
      cases parsed with
      | some v => simp [isFault] at hf
      | none =>
          by_cases h : 400 ≤ status ∧ status < 600 <;>
            simp [createResult, h, hasKey, hasKeyL]

theorem specReadResult_shape (o : HttpOutcome) :
    hasKey "error" (specReadResult o) = true
    ∨ ∃ s txt v, o = .ok s txt (some v) ∧ specReadResult o = v := by
  cases o with
  | requestException m => left; simp [specReadResult, hasKey, hasKeyL]
  | ok s txt parsed =>
      cases parsed with
      | none =>
          left
          by_cases h : (s == 200 || s == 201) = true <;>
            simp [specReadResult, h, hasKey, hasKeyL]
      | some v =>
          by_cases h : (s == 200 || s == 201) = true
          · right; exact ⟨s, txt, v, rfl, by simp [specReadResult, h]⟩
          · left; simp [specReadResult, h, hasKey, hasKeyL]

/-- claim C5 — for every operation of `src/app.py` that calls the
network (`list_event_types`, `get_bookings`, `create_booking`), when
the remote responds with status 200 or 201 and a body that parses as
JSON value `v`, the operation returns `v` unchanged: pass-through with
no transformation and no schema validation. -/
theorem C5_passthrough (status : Nat) (hs : status = 200 ∨ status = 201)
    (text : String) (v : JValue) (k : String) (hk : k ≠ "")
    (e u : Option Int) (s df dt : Option String) (l : Option Int)
    (st an ae tz : String) (e2 : Option Int)
    (es us ts os ph lg : Option String) (g : Option (List String))
    (loc : Option String) (md : Option (List (String × JValue)))
    (lim : Option Int) (bfr : Option (List (String × JValue)))
    (hv : createBookingValid e2 es us ts = true) :
    (list_event_types (some k) (constTransport (.ok status text (some v)))).1
        = v
    ∧ (get_bookings (some k) e u s df dt l
        (constTransport (.ok status text (some v)))).1 = v
    ∧ (create_booking (some k) st an ae tz e2 es us ts os ph lg g loc md lim
        bfr (constTransport (.ok status text (some v)))).1 = v := by
  have h4 : ¬(400 ≤ status ∧ status < 600) := by
    rcases hs with h | h <;> omega
  refine ⟨?_, ?_, ?_⟩ <;>
    simp [list_event_types, get_bookings, create_booking, keyConfigured, hk,
      hv, readResult, createResult, constTransport, h4]

/-- claim C5 — witness: `create_booking` on a simulated 201 response
with body `(lbrace)"id": 7(rbrace)` returns exactly that object. -/
theorem C5_witness :
    ((201 : Nat) = 200 ∨ (201 : Nat) = 201)
    ∧ (create_booking (some "KEY") "2024-08-13T09:00:00Z" "Ada" "ada@a.io"
        "Europe/Rome" (some 1) none none none none none none none none none
        none none
        (constTransport (.ok 201 "ignored" (some (.obj [("id", .num 7)]))))).1
      = JValue.obj [("id", JValue.num 7)] :=
  ⟨Or.inr rfl,
   (C5_passthrough 201 (Or.inr rfl) "ignored" (.obj [("id", .num 7)]) "KEY"
     (by decide) none none none none none none "2024-08-13T09:00:00Z" "Ada"
     "ada@a.io" "Europe/Rome" (some 1) none none none none none none none
     none none none none (by rfl)).2.2⟩

/-- claim C6 — counterexample. The claim quantifies over every non-2xx
status code, but `raise_for_status` only raises for 4xx/5xx: on a
simulated 303 response whose body parses as JSON (here `[1]`),
`list_event_types` returns the parsed body itself — not an error
envelope, with neither an `error` nor a `status_code` field — even
though 303 is not a 2xx status. -/
theorem C6_counterexample :
    (list_event_types (some "KEY")
        (constTransport (.ok 303 "[1]" (some (.arr [.num 1]))))).1
      = JValue.arr [JValue.num 1]
    ∧ hasKey "error" (JValue.arr [JValue.num 1]) = false
    ∧ hasKey "status_code" (JValue.arr [JValue.num 1]) = false
    ∧ ¬(200 ≤ 303 ∧ 303 ≤ 299) :=
  ⟨rfl, rfl, rfl, by decide⟩

/-- claim C6 (amended) — for every read operation (`list_event_types`,
`get_bookings`), when the remote responds with a 4xx or 5xx status
code (`400 ≤ status < 600`, the statuses for which `raise_for_status`
raises; e.g. 500 with body "Internal error"), the result is an error
envelope containing an `error` message, the `status_code`, and the raw
response body text. -/
theorem C6_http_error_envelope (k : String) (hk : k ≠ "")
    (status : Nat) (h4 : 400 ≤ status) (h6 : status < 600)
    (text : String) (parsed : Option JValue)
    (e u : Option Int) (s df dt : Option String) (l : Option Int) :
    (list_event_types (some k) (constTransport (.ok status text parsed))).1
      = JValue.obj
          [("error", .str (httpErrorText status (baseUrl ++ "/event-types"))),
           ("status_code", .num status), ("response_text", .str text)]
    ∧ (get_bookings (some k) e u s df dt l
        (constTransport (.ok status text parsed))).1
      = JValue.obj
          [("error", .str (httpErrorText status (baseUrl ++ "/bookings"))),
           ("status_code", .num status), ("response_text", .str text)] := by
  constructor <;>
    simp [list_event_types, get_bookings, keyConfigured, hk, readResult,
      constTransport, h4, h6]

/-- claim C6 — witness: both read operations on a simulated 500
response with body "Internal error". -/
theorem C6_witness :
    ("KEY" : String) ≠ "" ∧ (400 : Nat) ≤ 500 ∧ (500 : Nat) < 600
    ∧ (list_event_types (some "KEY")
        (constTransport (.ok 500 "Internal error" none))).1
      = JValue.obj
          [("error", .str (httpErrorText 500 (baseUrl ++ "/event-types"))),
           ("status_code", .num 500),
           ("response_text", .str "Internal error")] :=
  ⟨by decide, by decide, by decide,
   (C6_http_error_envelope "KEY" (by decide) 500 (by decide) (by decide)
     "Internal error" none none none none none none none).1⟩

/-- claim C7 — for every operation of `src/app.py` and every fault —
a transport-level failure (connection refused, DNS failure, timeout,
modelled by `requestException`) or a JSON-parse failure of the
response body — the operation returns an envelope containing an
`error` message. No exception propagates to the caller: each embedded
operation is a total function into envelope values, whatever the
transport outcome and the credential. -/
theorem C7_no_exception (apiKey : Option String) (o : HttpOutcome)
    (hf : isFault o = true)
    (e u : Option Int) (s df dt : Option String) (l : Option Int)
    (st an ae tz : String) (e2 : Option Int)
    (es us ts os ph lg : Option String) (g : Option (List String))
    (loc : Option String) (md : Option (List (String × JValue)))
    (lim : Option Int) (bfr : Option (List (String × JValue))) :
    hasKey "error" (list_event_types apiKey (constTransport o)).1 = true
    ∧ hasKey "error"
        (get_bookings apiKey e u s df dt l (constTransport o)).1 = true
    ∧ hasKey "error"
        (create_booking apiKey st an ae tz e2 es us ts os ph lg g loc md lim
          bfr (constTransport o)).1 = true := by
  refine ⟨?_, ?_, ?_⟩
  · unfold list_event_types
    split
    · exact readResult_fault _ _ hf
    · simp [apiKeyErrorEnvelope, hasKey, hasKeyL]
  · unfold get_bookings
    split
    · exact readResult_fault _ _ hf
    · simp [apiKeyErrorEnvelope, hasKey, hasKeyL]
  · unfold create_booking
    split
    · split
      · exact createResult_fault _ _ hf
      · simp [bookingValidationEnvelope, hasKey, hasKeyL]
    · simp [apiKeyErrorEnvelope, hasKey, hasKeyL]

/-- claim C7 — witness: a simulated connection timeout yields an error
envelope from `list_event_types`. -/
theorem C7_witness :
    isFault (.requestException "connection timeout") = true
    ∧ hasKey "error"
        (list_event_types (some "KEY")
          (constTransport (.requestException "connection timeout"))).1
      = true :=
  ⟨rfl,
   (C7_no_exception (some "KEY") (.requestException "connection timeout") rfl
     none none none none none none "s" "n" "e" "t" none none none none none
     none none none none none none none).1⟩

/-- claim C3 — absent (`None`) input parameters are omitted entirely
from the outgoing mapping. For `get_bookings` the query mapping
contains each key exactly when the corresponding parameter is
non-`None` (so a key is present only if the parameter was provided and
non-null, and an absent parameter contributes nothing). For
`create_booking` (under the operation's identification precondition,
which every payload that is actually sent satisfies), every optional
input that is `None` contributes no key to the payload — including the
attendee-nested `phoneNumber` and `language` — so a key is present
only if the corresponding parameter was provided and non-null; nothing
is ever sent as JSON `null`. -/
theorem C3_omit_absent :
    (∀ (e u : Option Int) (s df dt : Option String) (l : Option Int),
      hasKeyL "eventTypeId" (getBookingsParams e u s df dt l) = e.isSome
      ∧ hasKeyL "userId" (getBookingsParams e u s df dt l) = u.isSome
      ∧ hasKeyL "status" (getBookingsParams e u s df dt l) = s.isSome
      ∧ hasKeyL "dateFrom" (getBookingsParams e u s df dt l) = df.isSome
      ∧ hasKeyL "dateTo" (getBookingsParams e u s df dt l) = dt.isSome
      ∧ hasKeyL "take" (getBookingsParams e u s df dt l) = l.isSome)
    ∧ (∀ (st an ae tz : String) (e : Option Int)
        (es us ts os ph lg : Option String) (g : Option (List String))
        (loc : Option String) (md : Option (List (String × JValue)))
        (lim : Option Int) (bfr : Option (List (String × JValue))),
      createBookingValid e es us ts = true →
      (e = none → hasKey "eventTypeId"
        (createBookingPayload st an ae tz e es us ts os ph lg g loc md lim bfr)
          = false)
      ∧ (es = none → hasKey "eventTypeSlug"
          (createBookingPayload st an ae tz e es us ts os ph lg g loc md lim
            bfr) = false)
      ∧ (us = none → hasKey "username"
          (createBookingPayload st an ae tz e es us ts os ph lg g loc md lim
            bfr) = false)
      ∧ (ts = none → hasKey "teamSlug"
          (createBookingPayload st an ae tz e es us ts os ph lg g loc md lim
            bfr) = false)
      ∧ (os = none → hasKey "organizationSlug"
          (createBookingPayload st an ae tz e es us ts os ph lg g loc md lim
            bfr) = false)
      ∧ (g = none → hasKey "guests"
          (createBookingPayload st an ae tz e es us ts os ph lg g loc md lim
            bfr) = false)
      ∧ (loc = none → hasKey "location"
          (createBookingPayload st an ae tz e es us ts os ph lg g loc md lim
            bfr) = false)
      ∧ (md = none → hasKey "metadata"
          (createBookingPayload st an ae tz e es us ts os ph lg g loc md lim
            bfr) = false)
      ∧ (lim = none → hasKey "lengthInMinutes"
          (createBookingPayload st an ae tz e es us ts os ph lg g loc md lim
            bfr) = false)
      ∧ (bfr = none → hasKey "bookingFieldsResponses"
          (createBookingPayload st an ae tz e es us ts os ph lg g loc md lim
            bfr) = false)
      ∧ getField "attendee"
          (createBookingPayload st an ae tz e es us ts os ph lg g loc md lim
            bfr) = some (attendeeObject an ae tz ph lg)
      ∧ (ph = none →
          hasKey "phoneNumber" (attendeeObject an ae tz ph lg) = false)
      ∧ (lg = none →
          hasKey "language" (attendeeObject an ae tz ph lg) = false)) := by
  constructor
  · intro e u s df dt l
    exact ⟨gbp_eventTypeId e u s df dt l, gbp_userId e u s df dt l,
      gbp_status e u s df dt l, gbp_dateFrom e u s df dt l,
      gbp_dateTo e u s df dt l, gbp_take e u s df dt l⟩
  · intro st an ae tz e es us ts os ph lg g loc md lim bfr hv
    refine ⟨?_, ?_, ?_, ?_, ?_, ?_, ?_, ?_, ?_, ?_, ?_, ?_, ?_⟩
    · intro h; subst h
      simp [payloadKey_eventTypeId, optIntTruthy]
    · intro h; subst h
      have he : optIntTruthy e = true := by
        simpa [createBookingValid, optStrTruthy] using hv
      simp [payloadKey_eventTypeSlug, he]
    · intro h; subst h
      simp [payloadKey_username, optStrTruthy]
    · intro h; subst h
      simp [payloadKey_teamSlug, optStrTruthy]
    · intro h; subst h
      simp [payloadKey_organizationSlug, optStrTruthy]
    · intro h; subst h
      simp [payloadKey_guests, optListTruthy]
    · intro h; subst h
      simp [payloadKey_location, optStrTruthy]
    · intro h; subst h
      simp [payloadKey_metadata, optDictTruthy]
    · intro h; subst h
      simp [payloadKey_lengthInMinutes, optIntTruthy]
    · intro h; subst h
      simp [payloadKey_bookingFieldsResponses, optDictTruthy]
    · exact payload_attendee st an ae tz e es us ts os ph lg g loc md lim bfr
    · intro h; subst h
      simp [attendee_phoneNumber, optStrTruthy]
    · intro h; subst h
      simp [attendee_language, optStrTruthy]

/-- claim C3 — witness: with the identification precondition satisfied
through `event_type_id = 7` and every optional parameter absent, the
payload carries no `guests` key. -/
theorem C3_witness :
    createBookingValid (some 7) none none none = true
    ∧ hasKey "guests"
        (createBookingPayload "2024-08-13T09:00:00Z" "Ada" "ada@a.io"
          "Europe/Rome" (some 7) none none none none none none none none none
          none none) = false :=
  ⟨rfl,
   (C3_omit_absent.2 "2024-08-13T09:00:00Z" "Ada" "ada@a.io" "Europe/Rome"
     (some 7) none none none none none none none none none none none
     rfl).2.2.2.2.2.1 rfl⟩

/-- claim C9 — `create_booking` decides presence by Python truthiness,
not by null-ness: with `event_type_id = 0` and no slug identification
the validation-error envelope is returned with no network call,
exactly as if `event_type_id` were absent; and falsy non-null values —
`length_in_minutes = 0`, an empty `guests` list, an empty `metadata`
dict, and empty strings (`location_input`, `organization_slug`,
`attendee_phone_number`, `attendee_language`) — are omitted from the
payload as if absent. -/
theorem C9_truthiness (k : String) (hk : k ≠ "") :
    (∀ (st an ae tz : String) (os ph lg : Option String)
        (g : Option (List String)) (loc : Option String)
        (md : Option (List (String × JValue))) (lim : Option Int)
        (bfr : Option (List (String × JValue))) (t : Transport),
      create_booking (some k) st an ae tz (some 0) none none none os ph lg g
          loc md lim bfr t
        = (bookingValidationEnvelope, [])
      ∧ create_booking (some k) st an ae tz (some 0) none none none os ph lg g
          loc md lim bfr t
        = create_booking (some k) st an ae tz none none none none os ph lg g
            loc md lim bfr t)
    ∧ (∀ (st an ae tz : String) (e : Option Int)
        (es us ts os ph lg : Option String) (g : Option (List String))
        (loc : Option String) (md : Option (List (String × JValue)))
        (bfr : Option (List (String × JValue))),
      hasKey "lengthInMinutes"
          (createBookingPayload st an ae tz e es us ts os ph lg g loc md
            (some 0) bfr) = false
      ∧ hasKey "guests"
          (createBookingPayload st an ae tz e es us ts os ph lg (some []) loc
            md (some 0) bfr) = false
      ∧ hasKey "metadata"
          (createBookingPayload st an ae tz e es us ts os ph lg g loc
            (some []) (some 0) bfr) = false
      ∧ hasKey "location"
          (createBookingPayload st an ae tz e es us ts os ph lg g (some "") md
            (some 0) bfr) = false
      ∧ hasKey "organizationSlug"
          (createBookingPayload st an ae tz e es us ts (some "") ph lg g loc
            md (some 0) bfr) = false
      ∧ hasKey "phoneNumber" (attendeeObject an ae tz (some "") lg) = false
      ∧ hasKey "language" (attendeeObject an ae tz ph (some "")) = false) := by
  constructor
  · intro st an ae tz os ph lg g loc md lim bfr t
    constructor <;>
      simp [create_booking, keyConfigured, hk, createBookingValid,
        optIntTruthy, optStrTruthy]
  · intro st an ae tz e es us ts os ph lg g loc md bfr
    refine ⟨?_, ?_, ?_, ?_, ?_, ?_, ?_⟩ <;>
      simp [payloadKey_lengthInMinutes, payloadKey_guests, payloadKey_metadata,
        payloadKey_location, payloadKey_organizationSlug, attendee_phoneNumber,
        attendee_language, optIntTruthy, optListTruthy, optDictTruthy,
        optStrTruthy]

/-- claim C9 — witness: `create_booking` with `event_type_id = 0`,
no slug identification, and a configured key returns the
validation-error envelope with an empty request trace. -/
theorem C9_witness :
    ("KEY" : String) ≠ ""
    ∧ create_booking (some "KEY") "2024-08-13T09:00:00Z" "Ada" "ada@a.io"
        "Europe/Rome" (some 0) none none none none none none none none none
        none none deadTransport
      = (bookingValidationEnvelope, []) :=
  ⟨by decide,
   ((C9_truthiness "KEY" (by decide)).1 "2024-08-13T09:00:00Z" "Ada"
     "ada@a.io" "Europe/Rome" none none none none none none none none
     deadTransport).1⟩

/-- claim C10 — when `event_type_id` is absent and `username`,
`team_slug` are both provided (truthy) together with `event_type_slug`,
the payload carries `username` and silently drops `teamSlug`; and in
every payload, a `teamSlug` key can only be present when `username` is
falsy (absent or empty). -/
theorem C10_username_shadows_teamSlug :
    (∀ (st an ae tz : String) (es us ts os ph lg : Option String)
        (g : Option (List String)) (loc : Option String)
        (md : Option (List (String × JValue))) (lim : Option Int)
        (bfr : Option (List (String × JValue))),
      optStrTruthy us = true →
      hasKey "username"
          (createBookingPayload st an ae tz none es us ts os ph lg g loc md
            lim bfr) = true
      ∧ hasKey "teamSlug"
          (createBookingPayload st an ae tz none es us ts os ph lg g loc md
            lim bfr) = false)
    ∧ (∀ (st an ae tz : String) (e : Option Int)
        (es us ts os ph lg : Option String) (g : Option (List String))
        (loc : Option String) (md : Option (List (String × JValue)))
        (lim : Option Int) (bfr : Option (List (String × JValue))),
      hasKey "teamSlug"
          (createBookingPayload st an ae tz e es us ts os ph lg g loc md lim
            bfr) = true →
      optStrTruthy us = false) := by
  constructor
  · intro st an ae tz es us ts os ph lg g loc md lim bfr hu
    constructor
    · simp [payloadKey_username, optIntTruthy, hu]
    · simp [payloadKey_teamSlug, hu]
  · intro st an ae tz e es us ts os ph lg g loc md lim bfr ht
    rw [payloadKey_teamSlug] at ht
    simp only [Bool.and_eq_true, Bool.not_eq_true'] at ht
    exact ht.1.2

/-- claim C10 — witness: with `event_type_id` absent and
`event_type_slug = "intro"`, `username = "alice"`,
`team_slug = "acme"` all provided, the payload carries `username` but
not `teamSlug`. -/
theorem C10_witness :
    optStrTruthy (some "alice") = true
    ∧ hasKey "teamSlug"
        (createBookingPayload "2024-08-13T09:00:00Z" "Ada" "ada@a.io"
          "Europe/Rome" none (some "intro") (some "alice") (some "acme") none
          none none none none none none none) = false :=
  ⟨rfl,
   ((C10_username_shadows_teamSlug.1 "2024-08-13T09:00:00Z" "Ada" "ada@a.io"
     "Europe/Rome" (some "intro") (some "alice") (some "acme") none none none
     none none none none none rfl).2)⟩

/-- claim C8 — the spec-modelled tool surface: `list_schedules`
(`GET /schedules` with `user_id→userId`, `team_id→teamId`, `limit`),
`list_teams` (`GET /teams`), `list_users` (`GET /users`) and
`list_webhooks` (`GET /webhooks`) are each callable independently and,
for every parameter choice and transport outcome, issue exactly one
GET request at their path and return either the remote's parsed JSON
success body or an error envelope (an object with an `error` key). -/
theorem C8_tool_surface :
    (∀ (u ti l : Option Int) (o : HttpOutcome),
      (list_schedules (some "KEY") u ti l (constTransport o)).2.map
          (fun r => (r.method, r.url)) = [("GET", baseUrl ++ "/schedules")]
      ∧ (list_schedules (some "KEY") u ti l (constTransport o)).2.map
          Request.queryParams
        = [optField "userId" (u.map .num) ++ optField "teamId" (ti.map .num)
            ++ optField "limit" (l.map .num)]
      ∧ (hasKey "error"
            (list_schedules (some "KEY") u ti l (constTransport o)).1 = true
         ∨ ∃ s txt v, o = .ok s txt (some v)
             ∧ (list_schedules (some "KEY") u ti l (constTransport o)).1 = v))
    ∧ (∀ (l : Option Int) (o : HttpOutcome),
      (list_teams (some "KEY") l (constTransport o)).2.map
          (fun r => (r.method, r.url)) = [("GET", baseUrl ++ "/teams")]
      ∧ (hasKey "error" (list_teams (some "KEY") l (constTransport o)).1 = true
         ∨ ∃ s txt v, o = .ok s txt (some v)
             ∧ (list_teams (some "KEY") l (constTransport o)).1 = v))
    ∧ (∀ (l : Option Int) (o : HttpOutcome),
      (list_users (some "KEY") l (constTransport o)).2.map
          (fun r => (r.method, r.url)) = [("GET", baseUrl ++ "/users")]
      ∧ (hasKey "error" (list_users (some "KEY") l (constTransport o)).1 = true
         ∨ ∃ s txt v, o = .ok s txt (some v)
             ∧ (list_users (some "KEY") l (constTransport o)).1 = v))
    ∧ (∀ (l : Option Int) (o : HttpOutcome),
      (list_webhooks (some "KEY") l (constTransport o)).2.map
          (fun r => (r.method, r.url)) = [("GET", baseUrl ++ "/webhooks")]
      ∧ (hasKey "error"
            (list_webhooks (some "KEY") l (constTransport o)).1 = true
         ∨ ∃ s txt v, o = .ok s txt (some v)
             ∧ (list_webhooks (some "KEY") l (constTransport o)).1 = v)) := by
  refine ⟨fun u ti l o => ⟨rfl, rfl, ?_⟩, fun l o => ⟨rfl, ?_⟩,
    fun l o => ⟨rfl, ?_⟩, fun l o => ⟨rfl, ?_⟩⟩ <;>
    exact specReadResult_shape o

end CalcomMCP
